import Mathlib

/-!
Verification development for the per-frame video editor.

The definitions below are a shallow embedding of the source files:
  - the WebGL fragment shader and its driver (webglProcessor);
  - the zustand video store (videoStore.ts);
  - the export orchestrator (videoExporter.ts) and the simple exporter
    (simpleVideoExporter.ts).

GLSL floats are modelled as exact rationals.  The four shader quantities
that are irrational in general (the exponential exp2(u_exposure), the
radial distance length(pos) used by the vignette, the pseudo-random
grain value fract(sin(...)), and the saturation length used by the
vibrance stage) are passed to the embedded shader as explicit
parameters; every claim below fixes or quantifies over them.
-/

/-- Vector of three rational color components (GLSL vec3; x = r, y = g, z = b). -/
@[ext]
structure V3 where
  x : ℚ
  y : ℚ
  z : ℚ
  deriving DecidableEq

/-- Vector of four rational components (GLSL vec4). -/
@[ext]
structure V4 where
  x : ℚ
  y : ℚ
  z : ℚ
  w : ℚ
  deriving DecidableEq

/-- GLSL step(edge, x): 0.0 when x < edge, else 1.0. -/
def stepQ (edge x : ℚ) : ℚ := if x < edge then 0 else 1

/-- GLSL mix(a, b, t) = a*(1-t) + b*t. -/
def mixQ (a b t : ℚ) : ℚ := a * (1 - t) + b * t

/-- Componentwise mix of two vec4 by a scalar. -/
def mix4 (a b : V4) (t : ℚ) : V4 :=
  ⟨mixQ a.x b.x t, mixQ a.y b.y t, mixQ a.z b.z t, mixQ a.w b.w t⟩

/-- Componentwise mix of two vec3 by a scalar. -/
def mixV3 (a b : V3) (t : ℚ) : V3 :=
  ⟨mixQ a.x b.x t, mixQ a.y b.y t, mixQ a.z b.z t⟩

/-- Minimum of two rationals by comparison (kernel-computable form of min). -/
def minQ (a b : ℚ) : ℚ := if a ≤ b then a else b

/-- Maximum of two rationals by comparison (kernel-computable form of max). -/
def maxQ (a b : ℚ) : ℚ := if a ≤ b then b else a

/-- GLSL clamp(x, lo, hi). -/
def clampQ (v lo hi : ℚ) : ℚ := minQ (maxQ v lo) hi

/-- GLSL fract(x) = x - floor(x). -/
def fractQ (v : ℚ) : ℚ := v - (⌊v⌋ : ℚ)

/-- GLSL smoothstep(e0, e1, x). -/
def smoothstepQ (e0 e1 v : ℚ) : ℚ :=
  let t := clampQ ((v - e0) / (e1 - e0)) 0 1
  t * t * (3 - 2 * t)

/-- Scalar multiplication of a vec3. -/
def smulV3 (k : ℚ) (v : V3) : V3 := ⟨k * v.x, k * v.y, k * v.z⟩

/-- Componentwise sum of two vec3. -/
def addV3 (a b : V3) : V3 := ⟨a.x + b.x, a.y + b.y, a.z + b.z⟩

/-- Adding a scalar to every component of a vec3 (GLSL vec3 + float). -/
def addS3 (a : V3) (k : ℚ) : V3 := ⟨a.x + k, a.y + k, a.z + k⟩

/-- Luminance dot product dot(color, vec3(0.299, 0.587, 0.114)) used throughout
the fragment shader. -/
def dotLum (c : V3) : ℚ := 0.299 * c.x + 0.587 * c.y + 0.114 * c.z

/-- Shader rgb2hsv from webglProcessor (part_004, lines 81-88).  The literal
1.0e-10 is the exact rational 1/10^10. -/
def rgb2hsv (c : V3) : V3 :=
  let kx : ℚ := 0
  let ky : ℚ := -1/3
  let kz : ℚ := 2/3
  let kw : ℚ := -1
  let p : V4 := mix4 ⟨c.z, c.y, kw, kz⟩ ⟨c.y, c.z, kx, ky⟩ (stepQ c.z c.y)
  let q : V4 := mix4 ⟨p.x, p.y, p.w, c.x⟩ ⟨c.x, p.y, p.z, p.x⟩ (stepQ p.x c.x)
  let d : ℚ := q.x - minQ q.w q.y
  let e : ℚ := 1 / 10000000000
  ⟨|q.z + (q.w - q.y) / (6 * d + e)|, d / (q.x + e), q.x⟩

/-- Shader hsv2rgb from webglProcessor (part_004, lines 90-94). -/
def hsv2rgb (c : V3) : V3 :=
  let kx : ℚ := 1
  let ky : ℚ := 2/3
  let kz : ℚ := 1/3
  let kw : ℚ := 3
  let px : ℚ := |fractQ (c.x + kx) * 6 - kw|
  let py : ℚ := |fractQ (c.x + ky) * 6 - kw|
  let pz : ℚ := |fractQ (c.x + kz) * 6 - kw|
  ⟨c.z * mixQ 1 (clampQ (px - 1) 0 1) c.y,
   c.z * mixQ 1 (clampQ (py - 1) 0 1) c.y,
   c.z * mixQ 1 (clampQ (pz - 1) 0 1) c.y⟩

/-- Shader appleToneMap (part_004, lines 97-104): filmic Reinhard-style curve,
clamped to [0,1]. -/
def appleToneMap (v shoulder toe : ℚ) : ℚ :=
  let a := 2.51 * shoulder
  let b := 0.03 * toe
  let c := 2.43 * shoulder
  let d := 0.59 * toe
  let e : ℚ := 0.14
  clampQ ((v * (a * v + b)) / (v * (c * v + d) + e)) 0 1

/-- Shader adjustHighlightsShadows (part_004, lines 107-121).  The luminance is
computed once from the incoming color and reused for the highlight weight. -/
def adjustHighlightsShadows (color : V3) (highlights shadows : ℚ) : V3 :=
  let luminance := dotLum color
  let shadowAmount := (1 - smoothstepQ 0 0.5 luminance) ^ 2
  let c1 := addV3 color (smulV3 (shadows * shadowAmount * 0.3) color)
  let highlightAmount := smoothstepQ 0.5 1 luminance ^ 2
  addV3 c1 (smulV3 (highlights * highlightAmount * 0.3) c1)

/-- Shader adjustVibrance (part_004, lines 124-132).  satLen stands for the
irrational quantity length(color - vec3(luminance)); it is supplied by the
caller as an environment value and is irrelevant whenever vibrance = 0. -/
def adjustVibrance (satLen : ℚ) (color : V3) (vibrance : ℚ) : V3 :=
  let vibranceStrength := (1 - satLen) * vibrance
  let hsv := rgb2hsv color
  hsv2rgb ⟨hsv.x, hsv.y + vibranceStrength * 0.5, hsv.z⟩

/-- Shader adjustTemperature (part_004, lines 135-141). -/
def adjustTemperature (color : V3) (temp tint : ℚ) : V3 :=
  ⟨color.x + temp * 0.1, color.y + tint * 0.05, color.z - temp * 0.1⟩

/-- Shader adjustClarity (part_004, lines 144-148). -/
def adjustClarity (color : V3) (clarity : ℚ) : V3 :=
  let luminance := dotLum color
  let contrast := (luminance - 0.5) * clarity * 0.5
  addS3 color contrast

/-- Shader grain (part_004, lines 151-154).  noiseVal stands for the
pseudo-random fract(sin(dot(uv*size, ...)) * 43758.5453), supplied by the
caller; it is irrelevant whenever amount = 0. -/
def grainQ (noiseVal amount _size : ℚ) : ℚ := mixQ 1 noiseVal (amount * 0.01)

/-- Shader vignette (part_004, lines 157-162).  dist stands for
length(uv - 0.5), supplied by the caller. -/
def vignetteQ (dist amount feather : ℚ) : ℚ :=
  let f := maxQ (feather * 0.01) 0.01
  1 - smoothstepQ (0.5 - f) 0.5 dist * amount * 0.01

/-- Shader applyFade (part_004, lines 165-168). -/
def applyFade (color : V3) (fadeAmount : ℚ) : V3 :=
  let fade := fadeAmount * 0.01
  mixV3 color ⟨0.5, 0.5, 0.5⟩ (fade * 0.3)

/-- Shader applyHueShift (part_004, lines 171-175). -/
def applyHueShift (color : V3) (hue : ℚ) : V3 :=
  let hsv := rgb2hsv color
  hsv2rgb ⟨fractQ (hsv.x + hue / 360), hsv.y, hsv.z⟩

/-- Shader applyColorBalance (part_004, lines 178-182). -/
def applyColorBalance (color : V3) (balance : ℚ) : V3 :=
  ⟨color.x + balance * 0.1, color.y, color.z - balance * 0.1⟩

/-- Shader applyToneCurve (part_004, lines 185-193). -/
def applyToneCurve (color : V3) (lights darks : ℚ) : V3 :=
  let luminance := dotLum color
  if luminance > 0.5 then
    smulV3 (1 + lights * 0.5 * (luminance - 0.5) / 0.5) color
  else
    smulV3 (1 + darks * 0.5 * (0.5 - luminance) / 0.5) color

/-- Shader applyDehaze (part_004, lines 196-202). -/
def applyDehaze (color : V3) (dehaze : ℚ) : V3 :=
  let contrast := 1 + dehaze * 0.8
  let saturation := 1 + dehaze * 0.3
  let c : V3 := ⟨(color.x - 0.5) * contrast + 0.5,
                 (color.y - 0.5) * contrast + 0.5,
                 (color.z - 0.5) * contrast + 0.5⟩
  let luminance := dotLum c
  mixV3 ⟨luminance, luminance, luminance⟩ c saturation

/-- Shader applyColorGrading (part_004, lines 205-232). -/
def applyColorGrading (color : V3) (shadowsHue shadowsSat midtonesHue midtonesSat
    highlightsHue highlightsSat : ℚ) : V3 :=
  let luminance := dotLum color
  if luminance < 0.33 then
    let hsv := rgb2hsv color
    let h2 : V3 := ⟨fractQ (hsv.x + shadowsHue / 360), hsv.y * (1 + shadowsSat * 0.01), hsv.z⟩
    mixV3 color (hsv2rgb h2) (1 - luminance / 0.33)
  else if luminance < 0.67 then
    let hsv := rgb2hsv color
    let h2 : V3 := ⟨fractQ (hsv.x + midtonesHue / 360), hsv.y * (1 + midtonesSat * 0.01), hsv.z⟩
    mixV3 color (hsv2rgb h2) (1 - |luminance - 0.5| / 0.17)
  else
    let hsv := rgb2hsv color
    let h2 : V3 := ⟨fractQ (hsv.x + highlightsHue / 360), hsv.y * (1 + highlightsSat * 0.01), hsv.z⟩
    mixV3 color (hsv2rgb h2) ((luminance - 0.67) / 0.33)

/-- Shader applyCreativeEffects (part_004, lines 235-278). -/
def applyCreativeEffects (color : V3) (orton bleachBypass crossProcess vintage
    splitToning : ℚ) : V3 :=
  let c1 := if orton > 0 then
      smulV3 (1 + (orton * 0.01 * dotLum color) * 0.3) color
    else color
  let c2 := if bleachBypass > 0 then
      let grayValue := dotLum c1
      mixV3 c1 ⟨grayValue, grayValue, grayValue⟩ (bleachBypass * 0.01)
    else c1
  let c3 := if crossProcess > 0 then
      let factor := crossProcess * 0.01
      ⟨c2.x + (1 - c2.x) * factor * 0.2, c2.y * (1 - factor * 0.1), c2.z + factor * 0.15⟩
    else c2
  let c4 := if vintage > 0 then
      let vf := vintage * 0.01
      ⟨c3.x * (1 - vf * 0.1) + vf * 0.08,
       c3.y * (1 - vf * 0.05) + vf * 0.06,
       c3.z * (1 - vf * 0.2) + vf * 0.02⟩
    else c3
  if splitToning > 0 then
    let sf := splitToning * 0.01
    if dotLum c4 < 0.5 then ⟨c4.x, c4.y, c4.z + sf * 0.1⟩
    else ⟨c4.x + sf * 0.1, c4.y, c4.z⟩
  else c4

/-- Full set of adjustment parameters (videoStore.ts, VideoFrame adjustments;
also reused for the shader uniform values bound in processFrame). -/
structure Adjustments where
  exposure : ℚ
  brightness : ℚ
  highlights : ℚ
  shadows : ℚ
  contrast : ℚ
  brilliance : ℚ
  blackPoint : ℚ
  whitePoint : ℚ
  saturation : ℚ
  vibrance : ℚ
  temperature : ℚ
  tint : ℚ
  hue : ℚ
  colorBalance : ℚ
  lights : ℚ
  darks : ℚ
  shadowTone : ℚ
  clarity : ℚ
  dehaze : ℚ
  sharpening : ℚ
  noiseReduction : ℚ
  luminanceNoise : ℚ
  colorNoise : ℚ
  vignette : ℚ
  vignetteFeather : ℚ
  grainAmount : ℚ
  grainSize : ℚ
  chromaAberration : ℚ
  distortion : ℚ
  shadowsHue : ℚ
  shadowsSat : ℚ
  midtonesHue : ℚ
  midtonesSat : ℚ
  highlightsHue : ℚ
  highlightsSat : ℚ
  fadeAmount : ℚ
  splitToning : ℚ
  orton : ℚ
  bleachBypass : ℚ
  crossProcess : ℚ
  vintage : ℚ
  deriving DecidableEq

/-- Declared defaults (videoStore.ts, lines 94-149): every parameter 0 except
vignetteFeather = 50 and grainSize = 2. -/
def defaultAdjustments : Adjustments :=
  { exposure := 0, brightness := 0, highlights := 0, shadows := 0, contrast := 0
    brilliance := 0, blackPoint := 0, whitePoint := 0, saturation := 0
    vibrance := 0, temperature := 0, tint := 0, hue := 0, colorBalance := 0
    lights := 0, darks := 0, shadowTone := 0, clarity := 0, dehaze := 0
    sharpening := 0, noiseReduction := 0, luminanceNoise := 0, colorNoise := 0
    vignette := 0, vignetteFeather := 50, grainAmount := 0, grainSize := 2
    chromaAberration := 0, distortion := 0, shadowsHue := 0, shadowsSat := 0
    midtonesHue := 0, midtonesSat := 0, highlightsHue := 0, highlightsSat := 0
    fadeAmount := 0, splitToning := 0, orton := 0, bleachBypass := 0
    crossProcess := 0, vintage := 0 }

/-- Uniform binding performed by WebGLImageProcessor.processFrame (part_004,
lines 458-498): most parameters are divided by 100, while grain, vignette,
fade, hue, the grading hue/sat values and the creative effects are bound
raw. -/
def toUniforms (a : Adjustments) : Adjustments :=
  { exposure := a.exposure / 100, brightness := a.brightness / 100
    contrast := a.contrast / 100, highlights := a.highlights / 100
    shadows := a.shadows / 100, vibrance := a.vibrance / 100
    saturation := a.saturation / 100, temperature := a.temperature / 100
    tint := a.tint / 100, clarity := a.clarity / 100
    brilliance := a.brilliance / 100, blackPoint := a.blackPoint / 100
    whitePoint := a.whitePoint / 100, grainAmount := a.grainAmount
    grainSize := a.grainSize, vignette := a.vignette
    vignetteFeather := a.vignetteFeather, fadeAmount := a.fadeAmount
    hue := a.hue, colorBalance := a.colorBalance / 100
    lights := a.lights / 100, darks := a.darks / 100
    shadowTone := a.shadowTone / 100, dehaze := a.dehaze / 100
    sharpening := a.sharpening / 100, noiseReduction := a.noiseReduction / 100
    luminanceNoise := a.luminanceNoise / 100, colorNoise := a.colorNoise / 100
    chromaAberration := a.chromaAberration / 100, distortion := a.distortion / 100
    shadowsHue := a.shadowsHue, shadowsSat := a.shadowsSat
    midtonesHue := a.midtonesHue, midtonesSat := a.midtonesSat
    highlightsHue := a.highlightsHue, highlightsSat := a.highlightsSat
    splitToning := a.splitToning, orton := a.orton
    bleachBypass := a.bleachBypass, crossProcess := a.crossProcess
    vintage := a.vintage }

/-- Inline contrast stage of main (part_004, line 293). -/
def applyContrastStage (color : V3) (contrast : ℚ) : V3 :=
  ⟨(color.x - 0.5) * (1 + contrast * 0.5) + 0.5,
   (color.y - 0.5) * (1 + contrast * 0.5) + 0.5,
   (color.z - 0.5) * (1 + contrast * 0.5) + 0.5⟩

/-- Inline black/white point stage of main (part_004, line 296). -/
def applyBlackWhiteStage (color : V3) (blackPoint whitePoint : ℚ) : V3 :=
  let denomBW := 1 - blackPoint * 0.1 - whitePoint * 0.1
  ⟨(color.x - blackPoint * 0.1) / denomBW,
   (color.y - blackPoint * 0.1) / denomBW,
   (color.z - blackPoint * 0.1) / denomBW⟩

/-- Inline saturation stage of main (part_004, lines 302-303). -/
def applySaturationStage (color : V3) (saturation : ℚ) : V3 :=
  let luminance := dotLum color
  mixV3 ⟨luminance, luminance, luminance⟩ color (1 + saturation * 0.5)

/-- Inline brilliance stage of main (part_004, lines 324-325). -/
def applyBrillianceStage (color : V3) (brilliance : ℚ) : V3 :=
  let brillianceAmount := smoothstepQ 0.3 1 (dotLum color)
  addV3 color (smulV3 (brilliance * brillianceAmount * 0.2) color)

/-- Per-channel tone mapping stage of main (part_004, lines 331-333). -/
def toneMapStage (color : V3) : V3 :=
  ⟨appleToneMap color.x 1 1, appleToneMap color.y 1 1, appleToneMap color.z 1 1⟩

/-- Final clamp of main (part_004, line 350). -/
def clampStage (color : V3) : V3 :=
  ⟨clampQ color.x 0 1, clampQ color.y 0 1, clampQ color.z 0 1⟩

/-- Fragment shader main before its final clamp (part_004, lines 280-347),
over the bound uniforms u, written as the composition of its stages in source
order (innermost first).  e2exposure stands for exp2(u_exposure) (exact
whenever u_exposure is an integer: exp2 0 = 1, exp2 1 = 2); dist, noiseVal
and satLen are the other environment quantities described above. -/
def shaderPreClamp (u : Adjustments) (e2exposure dist noiseVal satLen : ℚ)
    (texColor : V3) : V3 :=
  (smulV3 (grainQ noiseVal u.grainAmount u.grainSize)
      (smulV3 (vignetteQ dist u.vignette u.vignetteFeather)
        (applyFade
          (applyCreativeEffects
            (toneMapStage
              (applyColorGrading
                (applyBrillianceStage
                  (adjustClarity
                    (applyDehaze
                      (applyToneCurve
                        (applyColorBalance
                          (applyHueShift
                            (adjustTemperature
                              (applySaturationStage
                                (adjustVibrance satLen
                                  (applyBlackWhiteStage
                                    (applyContrastStage
                                      (addS3
                                        (adjustHighlightsShadows
                                          (smulV3 e2exposure texColor)
                                          u.highlights u.shadows)
                                        (u.brightness * 0.1))
                                      u.contrast)
                                    u.blackPoint u.whitePoint)
                                  u.vibrance)
                                u.saturation)
                              u.temperature u.tint)
                            u.hue)
                          u.colorBalance)
                        u.lights u.darks)
                      u.dehaze)
                    u.clarity)
                  u.brilliance)
                u.shadowsHue u.shadowsSat u.midtonesHue u.midtonesSat
                u.highlightsHue u.highlightsSat))
            u.orton u.bleachBypass u.crossProcess u.vintage u.splitToning)
          u.fadeAmount)))

/-- Fragment shader main, the composition of all per-pixel stages followed by
the final clamp to [0,1] (part_004, lines 280-353). -/
def shaderMain (u : Adjustments) (e2exposure dist noiseVal satLen : ℚ)
    (texColor : V3) : V3 :=
  clampStage (shaderPreClamp u e2exposure dist noiseVal satLen texColor)

/-- Record of the optional per-parameter values carried by a merge update
(videoStore.ts, the Partial adjustments argument of updateFrameAdjustments).
A field that is none is absent from the update. -/
structure AdjustmentsUpdate where
  exposure : Option ℚ := none
  brightness : Option ℚ := none
  highlights : Option ℚ := none
  shadows : Option ℚ := none
  contrast : Option ℚ := none
  brilliance : Option ℚ := none
  blackPoint : Option ℚ := none
  whitePoint : Option ℚ := none
  saturation : Option ℚ := none
  vibrance : Option ℚ := none
  temperature : Option ℚ := none
  tint : Option ℚ := none
  hue : Option ℚ := none
  colorBalance : Option ℚ := none
  lights : Option ℚ := none
  darks : Option ℚ := none
  shadowTone : Option ℚ := none
  clarity : Option ℚ := none
  dehaze : Option ℚ := none
  sharpening : Option ℚ := none
  noiseReduction : Option ℚ := none
  luminanceNoise : Option ℚ := none
  colorNoise : Option ℚ := none
  vignette : Option ℚ := none
  vignetteFeather : Option ℚ := none
  grainAmount : Option ℚ := none
  grainSize : Option ℚ := none
  chromaAberration : Option ℚ := none
  distortion : Option ℚ := none
  shadowsHue : Option ℚ := none
  shadowsSat : Option ℚ := none
  midtonesHue : Option ℚ := none
  midtonesSat : Option ℚ := none
  highlightsHue : Option ℚ := none
  highlightsSat : Option ℚ := none
  fadeAmount : Option ℚ := none
  splitToning : Option ℚ := none
  orton : Option ℚ := none
  bleachBypass : Option ℚ := none
  crossProcess : Option ℚ := none
  vintage : Option ℚ := none
  deriving DecidableEq

/-- JavaScript object spread of an update over a complete set
(videoStore.ts, line 176): present fields win, absent fields keep the old
value. -/
def mergeAdjustments (a : Adjustments) (p : AdjustmentsUpdate) : Adjustments :=
  { exposure := p.exposure.getD a.exposure
    brightness := p.brightness.getD a.brightness
    highlights := p.highlights.getD a.highlights
    shadows := p.shadows.getD a.shadows
    contrast := p.contrast.getD a.contrast
    brilliance := p.brilliance.getD a.brilliance
    blackPoint := p.blackPoint.getD a.blackPoint
    whitePoint := p.whitePoint.getD a.whitePoint
    saturation := p.saturation.getD a.saturation
    vibrance := p.vibrance.getD a.vibrance
    temperature := p.temperature.getD a.temperature
    tint := p.tint.getD a.tint
    hue := p.hue.getD a.hue
    colorBalance := p.colorBalance.getD a.colorBalance
    lights := p.lights.getD a.lights
    darks := p.darks.getD a.darks
    shadowTone := p.shadowTone.getD a.shadowTone
    clarity := p.clarity.getD a.clarity
    dehaze := p.dehaze.getD a.dehaze
    sharpening := p.sharpening.getD a.sharpening
    noiseReduction := p.noiseReduction.getD a.noiseReduction
    luminanceNoise := p.luminanceNoise.getD a.luminanceNoise
    colorNoise := p.colorNoise.getD a.colorNoise
    vignette := p.vignette.getD a.vignette
    vignetteFeather := p.vignetteFeather.getD a.vignetteFeather
    grainAmount := p.grainAmount.getD a.grainAmount
    grainSize := p.grainSize.getD a.grainSize
    chromaAberration := p.chromaAberration.getD a.chromaAberration
    distortion := p.distortion.getD a.distortion
    shadowsHue := p.shadowsHue.getD a.shadowsHue
    shadowsSat := p.shadowsSat.getD a.shadowsSat
    midtonesHue := p.midtonesHue.getD a.midtonesHue
    midtonesSat := p.midtonesSat.getD a.midtonesSat
    highlightsHue := p.highlightsHue.getD a.highlightsHue
    highlightsSat := p.highlightsSat.getD a.highlightsSat
    fadeAmount := p.fadeAmount.getD a.fadeAmount
    splitToning := p.splitToning.getD a.splitToning
    orton := p.orton.getD a.orton
    bleachBypass := p.bleachBypass.getD a.bleachBypass
    crossProcess := p.crossProcess.getD a.crossProcess
    vintage := p.vintage.getD a.vintage }

/-- Video frame as stored by the Frame Store (videoStore.ts, VideoFrame):
stable id, base64 image payload, timestamp in seconds, owned adjustments. -/
structure VideoFrame where
  id : String
  imageData : String
  timestamp : ℚ
  adjustments : Adjustments
  deriving DecidableEq

/-- Video metadata (videoStore.ts, VideoInfo); the opaque File handle is
modelled by the flag hasFile. -/
structure VideoInfo where
  hasFile : Bool
  name : String
  duration : ℚ
  fps : ℚ
  width : ℚ
  height : ℚ
  format : String
  deriving DecidableEq

/-- Whole zustand store state (videoStore.ts, VideoStore). -/
structure VideoStore where
  video : Option VideoInfo
  frames : List VideoFrame
  currentFrame : Option ℕ
  isProcessing : Bool
  progress : ℚ
  deriving DecidableEq

/-- Store action updateFrameAdjustments (videoStore.ts, lines 172-180):
map over the frames, merging the update into the frame at the given index
and leaving every other frame untouched.  No clamping is performed. -/
def updateFrameAdjustments (s : VideoStore) (frameIndex : ℕ)
    (p : AdjustmentsUpdate) : VideoStore :=
  { s with frames := s.frames.mapIdx (fun idx f =>
      if idx = frameIndex then { f with adjustments := mergeAdjustments f.adjustments p }
      else f) }

/-- Store action applyCurrentFrameToAll (videoStore.ts, lines 182-192).
Returns none exactly when the selected index is out of bounds with a
non-empty frame list, where the JavaScript code would throw reading the
adjustments of an undefined element; otherwise returns the new store. -/
def applyCurrentFrameToAll (s : VideoStore) : Option VideoStore :=
  match s.currentFrame with
  | none => some s
  | some i =>
    if s.frames.length = 0 then some s
    else
      match s.frames.get? i with
      | none => none
      | some src =>
        some { s with frames := s.frames.map (fun fr =>
          { fr with adjustments := src.adjustments }) }

/-- CPU color path applyAdjustments of the videoProcessor module (staged in
FrameEditor.tsx, lines 843-1091): a Promise whose executor installs only an
onload handler — there is no reject call and no onerror handler, and onload
returns early when the 2d context is missing — so the call settles exactly
when the image decodes (imgLoads) and a 2d context exists (ctxOk), in which
case it resolves with the data URL produced by the canvas pipeline
(processed, supplied by the environment since it runs through browser CSS
filters and JPEG re-encoding).  The result none models a promise that never
settles.  No outcome returns the raw input pixels and none rejects. -/
def applyAdjustments (imgLoads ctxOk : Bool) (imageData processed : String) :
    Option String :=
  if imgLoads && ctxOk then some processed else none

/-- Fallback wrapper applyAdjustmentsGPU (part_004, lines 537-552): try the
cached WebGL processor and return its result; on any thrown error await the
CPU path of videoProcessor instead.  gpuOutcome is the settled outcome of
processFrame (ok, or error for a thrown failure); the dynamic import of
videoProcessor is part of the bundle and modelled as succeeding.  The result
is none when the awaited call never settles, and some of the settled Except
outcome otherwise. -/
def applyAdjustmentsGPU (gpuOutcome : Except String String)
    (imgLoads ctxOk : Bool) (imageData processed : String) :
    Option (Except String String) :=
  match gpuOutcome with
  | Except.ok d => some (Except.ok d)
  | Except.error _ =>
    (applyAdjustments imgLoads ctxOk imageData processed).map Except.ok

/-- JavaScript String.startsWith, modelled on the character lists of the two
strings. -/
def jsStartsWith (s pre : String) : Bool := pre.data.isPrefixOf s.data

/-- Input validation of exportVideo (videoExporter.ts, lines 166-178):
reject empty frame lists, a missing source file, and any frame whose
payload is empty or does not start with the data-image prefix. -/
def validateExportInput (frames : List VideoFrame) (hasFile : Bool) :
    Except String Unit :=
  if frames.length = 0 then Except.error "No frames provided for export"
  else if hasFile = false then Except.error "No video information or file provided"
  else
    let invalid := frames.filter (fun f =>
      f.imageData == "" || !(jsStartsWith f.imageData "data:image/"))
    if invalid.length > 0 then Except.error "frames have invalid image data"
    else Except.ok ()

/-- Frame-processing phase of exportVideoWithFFmpeg (videoExporter.ts, lines
400-433): proc models applyAdjustmentsGPU on one frame (none = the call
threw); a processed result that is empty or lacks the data-image prefix is
treated as a failure; any per-frame failure pushes the original payload. -/
def processFramesFFmpeg (proc : VideoFrame → Option String)
    (frames : List VideoFrame) : List String :=
  frames.map (fun f =>
    match proc f with
    | some d => if d == "" || !(jsStartsWith d "data:image/") then f.imageData else d
    | none => f.imageData)

/-- Frame-processing phase of exportVideoSimple (simpleVideoExporter.ts,
lines 38-95): frames with an empty payload are skipped and counted as
failed; frames with a payload lacking the data-image prefix are passed
through unprocessed and NOT counted; a processing failure is counted and the
original payload is pushed when it carries the prefix.  Returns the
processed list together with the failedFrames counter. -/
def simpleFrameStep (proc : VideoFrame → Option String)
    (acc : List String × ℕ) (f : VideoFrame) : List String × ℕ :=
  if f.imageData == "" then (acc.1, acc.2 + 1)
  else if !(jsStartsWith f.imageData "data:image/") then (acc.1 ++ [f.imageData], acc.2)
  else
    match proc f with
    | some d => (acc.1 ++ [d], acc.2)
    | none =>
      (if f.imageData == "" || !(jsStartsWith f.imageData "data:image/")
       then acc.1 else acc.1 ++ [f.imageData], acc.2 + 1)

/-- Fold of simpleFrameStep over the frame list, starting from an empty
output and a zero failedFrames counter. -/
def processFramesSimple (proc : VideoFrame → Option String)
    (frames : List VideoFrame) : List String × ℕ :=
  frames.foldl (simpleFrameStep proc) ([], 0)

/-- Frame-rate computation of exportVideoWithFFmpeg (videoExporter.ts, lines
471-486): start from videoInfo.fps with the JavaScript falsy fallback to 30,
replace it by the measured average rate (frames-1)/elapsed when there are at
least two frames and the elapsed time is positive, then clamp to [1, 60]. -/
def computeExportFrameRate (frames : List VideoFrame) (fps : ℚ) : ℚ :=
  let base := if fps = 0 then 30 else fps
  let rate :=
    if frames.length > 1 then
      match frames.head?, frames.getLast? with
      | some f0, some f1 =>
        let duration := f1.timestamp - f0.timestamp
        if duration > 0 then ((frames.length : ℚ) - 1) / duration else base
      | _, _ => base
    else base
  maxQ 1 (minQ 60 rate)

/-- Modelled from the spec: the frame rate of claim C7 stated in the words of
the spec, for comparison with the implementation — the measured average rate
(number of frames minus one over last minus first timestamp) when there are
at least two frames and positive elapsed time, else the nominal fps, clamped
to [1, 60]. -/
def specFrameRate (frames : List VideoFrame) (fps : ℚ) : ℚ :=
  let rate :=
    if 2 ≤ frames.length then
      match frames.head?, frames.getLast? with
      | some f0, some f1 =>
        if f1.timestamp - f0.timestamp > 0 then
          ((frames.length : ℚ) - 1) / (f1.timestamp - f0.timestamp)
        else fps
      | _, _ => fps
    else fps
  maxQ 1 (minQ 60 rate)

/-- Declared slider minimum for the exposure parameter (FrameControls.tsx and
AdvancedControls.tsx: range -100..100). -/
def exposureSliderMin : ℚ := -100

/-- Declared slider maximum for the exposure parameter. -/
def exposureSliderMax : ℚ := 100

/-- Sample frame with all-default adjustments and a valid payload. -/
def goodFrame : VideoFrame :=
  { id := "good", imageData := "data:image/jpeg;base64,AA", timestamp := 0,
    adjustments := defaultAdjustments }

/-- Sample frame whose payload lacks the data-image prefix. -/
def corruptFrame : VideoFrame :=
  { id := "bad", imageData := "corrupt", timestamp := 0,
    adjustments := defaultAdjustments }

/-- Sample frame with a valid payload whose processing is made to fail. -/
def fragileFrame : VideoFrame :=
  { id := "fragile", imageData := "data:image/jpeg;base64,FF", timestamp := 0,
    adjustments := defaultAdjustments }

/-- Store with one frame, used as a concrete input. -/
def storeOneFrame : VideoStore :=
  { video := none, frames := [goodFrame], currentFrame := some 0,
    isProcessing := false, progress := 0 }

/-- Update that sets only the exposure, to 500. -/
def exposure500Update : AdjustmentsUpdate := { exposure := some 500 }

/-- Fifty frames in which exactly one payload is corrupt in the sense of not
carrying the data-image prefix. -/
def corruptBatch50 : List VideoFrame := corruptFrame :: List.replicate 49 goodFrame

/-- Fifty frames with valid payloads, the first of which fails processing. -/
def mixedBatch50 : List VideoFrame := fragileFrame :: List.replicate 49 goodFrame

/-- Per-frame processing oracle that fails exactly on the fragile frame. -/
def fragileProc : VideoFrame → Option String :=
  fun f => if f.id == "fragile" then none else some "data:image/png;base64,PP"

/-- Frame-processing progress emitted by exportVideoWithFFmpeg for frame i of
n (videoExporter.ts, line 426): 10 + ((i+1)/n)*40, spanning 10-50. -/
def ffmpegFrameProgress (n i : ℕ) : ℚ := 10 + (((i : ℚ) + 1) / (n : ℚ)) * 40

/-- Frame-writing progress emitted by exportVideoWithFFmpeg for frame i of n
(videoExporter.ts, line 459): 55 + ((i+1)/n)*15, spanning 55-70. -/
def ffmpegWriteProgress (n i : ℕ) : ℚ := 55 + (((i : ℚ) + 1) / (n : ℚ)) * 15

/-- Complete sequence of onProgress values emitted by a successful
exportVideoWithFFmpeg run over n frames (videoExporter.ts, lines 384, 389,
393, 427, 436, 460, 469, 496, 550, 599, 610, 628). -/
def ffmpegTraceSuccess (n : ℕ) : List ℚ :=
  [0, 5, 10] ++ (List.range n).map (ffmpegFrameProgress n) ++ [55]
    ++ (List.range n).map (ffmpegWriteProgress n) ++ [75, 80, 85, 95, 98, 100]

/-- Sequence of onProgress values emitted by exportVideoWithFFmpeg up to and
including the 85 emitted just before the encoder invocation, for a run whose
encoding step then fails (videoExporter.ts, line 550 followed by a throw from
line 595). -/
def ffmpegTraceEncodeFailure (n : ℕ) : List ℚ :=
  [0, 5, 10] ++ (List.range n).map (ffmpegFrameProgress n) ++ [55]
    ++ (List.range n).map (ffmpegWriteProgress n) ++ [75, 80, 85]

/-- Frame-processing progress emitted by exportVideoSimple for frame i of n
(simpleVideoExporter.ts, line 85): (i/n)*60. -/
def simpleFrameProgress (n i : ℕ) : ℚ := ((i : ℚ) / (n : ℚ)) * 60

/-- Rendering progress emitted by the high-quality recorder for frame i of n
(simpleVideoExporter.ts, line 750): 80 + ((i+1)/n)*20. -/
def simpleRenderProgress (n i : ℕ) : ℚ := 80 + (((i : ℚ) + 1) / (n : ℚ)) * 20

/-- Complete sequence of onProgress values emitted by a successful
exportVideoSimple run over n frames (simpleVideoExporter.ts, lines 26, 86,
97, 751, 107). -/
def simpleTraceSuccess (n : ℕ) : List ℚ :=
  0 :: (List.range n).map (simpleFrameProgress n) ++ [70]
    ++ (List.range n).map (simpleRenderProgress n) ++ [100]

/-- Sequence of onProgress values seen by the caller of exportVideo when the
FFmpeg strategy fails at the encoding step and the simple strategy then
succeeds: the orchestrator emits a bare 0 between the two strategy traces
(videoExporter.ts, line 196). -/
def exportTraceStrategyFallback (n : ℕ) : List ℚ :=
  ffmpegTraceEncodeFailure n ++ 0 :: simpleTraceSuccess n

/-- Adjustments with exposure at the top of its declared range and everything
else at its default. -/
def exposure100Adjustments : Adjustments :=
  { defaultAdjustments with exposure := 100 }

/-- Character class of the JavaScript regex word escape (ASCII letters,
digits, underscore). -/
def isWordCharJS (c : Char) : Bool := c.isAlpha || c.isDigit || c == '_'

/-- Character class of the JavaScript regex whitespace escape (ASCII
whitespace plus the Unicode space code points JavaScript includes). -/
def isSpaceJS (c : Char) : Bool :=
  c == ' ' || c == '\t' || c == '\n' || c == '\r' || c.toNat == 0x0b ||
  c.toNat == 0x0c || c.toNat == 0xa0 || c.toNat == 0x1680 ||
  (0x2000 ≤ c.toNat && c.toNat ≤ 0x200a) || c.toNat == 0x2028 ||
  c.toNat == 0x2029 || c.toNat == 0x202f || c.toNat == 0x205f ||
  c.toNat == 0x3000 || c.toNat == 0xfeff

/-- The explicit special-character set removed by the first replace of
sanitizeFilename (videoExporter.ts, line 221); code points 123, 125, 34 and
39 are the braces, the double quote and the single quote. -/
def specialChars1 : List Char :=
  ['#', '@', '$', '%', '^', '&', '*', '(', ')', '+', '=', '[', ']',
   Char.ofNat 123, Char.ofNat 125, '|', '\\', ':', Char.ofNat 34, ';',
   Char.ofNat 39, '<', '>', '?', ',', '/']

/-- Character class kept by the second replace of sanitizeFilename
(videoExporter.ts, line 222): word characters, whitespace, dot, hyphen. -/
def keepSet2 (c : Char) : Bool :=
  isWordCharJS c || isSpaceJS c || c == '.' || c == '-'

/-- Replacement of every maximal run of characters matching p by the single
character rep: the list-level meaning of the global regex replace of a
one-class plus pattern.  The boolean tracks whether the previous character
was part of a run. -/
def collapseRuns (p : Char → Bool) (rep : Char) : Bool → List Char → List Char
  | _, [] => []
  | prev, c :: cs =>
    if p c then
      if prev then collapseRuns p rep true cs
      else rep :: collapseRuns p rep true cs
    else c :: collapseRuns p rep false cs

/-- Separator class trimmed from the ends by the fifth replace of
sanitizeFilename (videoExporter.ts, line 225). -/
def isSepChar (c : Char) : Bool := c == '.' || c == '_' || c == '-'

/-- sanitizeFilename (videoExporter.ts, lines 218-228): remove the explicit
special characters, keep only word/space/dot/hyphen, collapse whitespace
runs to single underscores, collapse underscore runs, trim leading and
trailing separators, cap at 100 characters, and trim whitespace. -/
def sanitizeFilename (s : String) : String :=
  let l1 := s.data.filter (fun c => !(specialChars1.contains c))
  let l2 := l1.filter keepSet2
  let l3 := collapseRuns isSpaceJS '_' false l2
  let l4 := collapseRuns (fun c => c == '_') '_' false l3
  let l5 := ((l4.dropWhile isSepChar).reverse.dropWhile isSepChar).reverse
  let l6 := l5.take 100
  let l7 := ((l6.dropWhile isSpaceJS).reverse.dropWhile isSpaceJS).reverse
  ⟨l7⟩

/-- Removal of the final extension (videoExporter.ts, line 233): drop a final
dot followed by one or more characters that are neither a slash nor a dot;
keep the name unchanged when no such suffix exists. -/
def stripExtension (s : String) : String :=
  let rev := s.data.reverse
  let after := rev.takeWhile (fun c => !(c == '.'))
  if after.length = rev.length then s
  else if after.length = 0 then s
  else if after.any (fun c => c == '/') then s
  else ⟨(rev.drop (after.length + 1)).reverse⟩

/-- Replacement of the first occurrence of a character, the list-level
meaning of the non-global replace of a plain string pattern. -/
def replaceFirstChar (target rep : Char) : List Char → List Char
  | [] => []
  | c :: cs => if c == target then rep :: cs else c :: replaceFirstChar target rep cs

/-- Timestamp component (videoExporter.ts, line 242): the first 16 characters
of the ISO date-time with hyphens and colons removed and the T replaced by an
underscore.  iso stands for the value of toISOString at export time. -/
def mkTimestamp (iso : String) : String :=
  ⟨replaceFirstChar 'T' '_' ((iso.data.take 16).filter
    (fun c => !(c == '-' || c == ':')))⟩

/-- JavaScript toLowerCase on the character list (ASCII range). -/
def toLowerJS (s : String) : String := ⟨s.data.map Char.toLower⟩

/-- JavaScript String.includes, modelled on character lists. -/
def containsSub (s pat : String) : Bool :=
  s.data.tails.any (fun t => pat.data.isPrefixOf t)

/-- Extension choice of generateCleanFilename (videoExporter.ts, lines
245-250): from the declared media type when it mentions webm, mp4 or mov,
else the lowercased original format; an empty media type models the absent
argument. -/
def chooseExtension (mime format : String) : String :=
  if mime == "" then toLowerJS format
  else if containsSub mime "webm" then "webm"
  else if containsSub mime "mp4" then "mp4"
  else if containsSub mime "mov" then "mov"
  else toLowerJS format

/-- generateCleanFilename (videoExporter.ts, lines 231-254). -/
def generateCleanFilename (originalFileName format mime iso : String) : String :=
  let baseName := stripExtension originalFileName
  let cleanBaseName := sanitizeFilename baseName
  let finalBaseName := if cleanBaseName == "" then "edited_video" else cleanBaseName
  let timestamp := mkTimestamp iso
  let extension := chooseExtension mime format
  finalBaseName ++ "_" ++ timestamp ++ "." ++ extension

/-- Accepted container extensions of the system (spec section 6, matching
the per-format lookup table of getCodecSettings). -/
def acceptedFormats : List String :=
  ["mp4", "mov", "avi", "mkv", "webm", "m4v", "3gp", "wmv", "flv"]

/-- C4 counterexample: when the GPU path throws and the CPU path also fails
(here the image does not decode), the per-frame call does not return the
frames raw, unmodified pixels: the CPU Promise of videoProcessor has no
raw-pixels fallback and never settles, so the awaited call yields none and
in particular never the raw payload. -/
theorem c4_counterexample :
    applyAdjustmentsGPU (Except.error "webgl context lost") false true
        "data:image/jpeg;base64,RAW" "data:image/jpeg;base64,PROCESSED" =
      none ∧
    ∀ d, applyAdjustmentsGPU (Except.error "webgl context lost") false true
        "data:image/jpeg;base64,RAW" "data:image/jpeg;base64,PROCESSED" ≠
      some (Except.ok d) := by
  constructor
  · rfl
  · intro d h
    simp [applyAdjustmentsGPU, applyAdjustments] at h

/-- C4 amended: a GPU color-processing failure never raises an error to the
caller — every settled outcome of applyAdjustmentsGPU is an ok value — and a
GPU failure falls through to the CPU path exactly once; but the CPU path has
no raw-pixels fallback: after a GPU failure the call settles (with the
processed output) exactly when the image decodes and a 2d context exists,
and otherwise it never settles instead of returning the raw pixels. -/
theorem c4_gpu_fallback_no_raw_pixels (gpuOutcome : Except String String)
    (imgLoads ctxOk : Bool) (imageData processed : String) :
    (∀ r, applyAdjustmentsGPU gpuOutcome imgLoads ctxOk imageData processed =
        some r → ∃ d, r = Except.ok d) ∧
    (∀ e, applyAdjustmentsGPU (Except.error e) imgLoads ctxOk imageData
        processed =
      (applyAdjustments imgLoads ctxOk imageData processed).map Except.ok) ∧
    (∀ e, (imgLoads && ctxOk) = false →
      applyAdjustmentsGPU (Except.error e) imgLoads ctxOk imageData processed =
        none) := by
  refine ⟨?_, fun e => rfl, ?_⟩
  · intro r hr
    cases gpuOutcome with
    | ok d =>
      simp only [applyAdjustmentsGPU, Option.some.injEq] at hr
      exact ⟨d, hr.symm⟩
    | error e =>
      cases himg : imgLoads <;> cases hctx : ctxOk <;>
        simp [applyAdjustmentsGPU, applyAdjustments, himg, hctx] at hr
      exact ⟨processed, hr.symm⟩
  · intro e h
    simp [applyAdjustmentsGPU, applyAdjustments, h]

/-- Witness for C4 amended: with a thrown GPU error, the call reduces to the
CPU path, and when that path cannot settle the result is none. -/
theorem c4_gpu_fallback_no_raw_pixels_witness :
    applyAdjustmentsGPU (Except.error "webgl unavailable") true true
        "data:image/jpeg;base64,RAW2" "data:image/jpeg;base64,PROCESSED2" =
      (applyAdjustments true true "data:image/jpeg;base64,RAW2"
        "data:image/jpeg;base64,PROCESSED2").map Except.ok ∧
    applyAdjustmentsGPU (Except.error "webgl unavailable") false false
        "data:image/jpeg;base64,RAW2" "data:image/jpeg;base64,PROCESSED2" =
      none :=
  ⟨(c4_gpu_fallback_no_raw_pixels (Except.error "webgl unavailable") true true
      "data:image/jpeg;base64,RAW2" "data:image/jpeg;base64,PROCESSED2").2.1
        "webgl unavailable",
   (c4_gpu_fallback_no_raw_pixels (Except.error "webgl unavailable") false false
      "data:image/jpeg;base64,RAW2" "data:image/jpeg;base64,PROCESSED2").2.2
        "webgl unavailable" rfl⟩

/-- C10: when the selected frame index is null or the frame list is empty,
applyCurrentFrameToAll leaves the entire store state unchanged (and throws
nothing). -/
theorem c10_applyCurrentToAll_noop (s : VideoStore)
    (h : s.currentFrame = none ∨ s.frames = []) :
    applyCurrentFrameToAll s = some s := by
  rcases h with h | h
  · simp [applyCurrentFrameToAll, h]
  · cases hc : s.currentFrame with
    | none => simp [applyCurrentFrameToAll, hc]
    | some i => simp [applyCurrentFrameToAll, hc, h]

/-- Witness for C10 at a concrete store with no frames and no selection. -/
theorem c10_applyCurrentToAll_noop_witness :
    applyCurrentFrameToAll
      { video := none, frames := [], currentFrame := none,
        isProcessing := false, progress := 0 } =
    some { video := none, frames := [], currentFrame := none,
           isProcessing := false, progress := 0 } :=
  c10_applyCurrentToAll_noop _ (Or.inl rfl)

/-- C8: with a non-null selected frame index that is in bounds,
applyCurrentFrameToAll succeeds and leaves every one of the N frames with an
AdjustmentSet equal to the selected frames full AdjustmentSet. -/
theorem c8_applyCurrentToAll_copies (s : VideoStore) (i : ℕ) (src : VideoFrame)
    (hc : s.currentFrame = some i) (hget : s.frames.get? i = some src) :
    ∃ s2, applyCurrentFrameToAll s = some s2 ∧
      s2.frames.length = s.frames.length ∧
      ∀ f ∈ s2.frames, f.adjustments = src.adjustments := by
  have hne : ¬ s.frames.length = 0 := by
    intro h0
    rw [List.length_eq_zero.mp h0] at hget
    simp at hget
  refine ⟨{ s with frames := s.frames.map (fun fr =>
      { fr with adjustments := src.adjustments }) }, ?_, by simp, ?_⟩
  · unfold applyCurrentFrameToAll
    rw [hc]
    rw [List.get?_eq_getElem?] at hget
    simp [hne, hget]
  · intro f hf
    rcases List.mem_map.mp hf with ⟨g, _, rfl⟩
    rfl

/-- Witness for C8 at a concrete two-frame store whose selected frame has a
non-default exposure. -/
theorem c8_applyCurrentToAll_copies_witness :
    ∃ s2, applyCurrentFrameToAll
        { video := none,
          frames := [{ goodFrame with
                        adjustments := { defaultAdjustments with exposure := 7 } },
                     fragileFrame],
          currentFrame := some 0, isProcessing := false, progress := 0 } = some s2 ∧
      s2.frames.length =
        ({ video := none,
           frames := [{ goodFrame with
                         adjustments := { defaultAdjustments with exposure := 7 } },
                      fragileFrame],
           currentFrame := some 0, isProcessing := false,
           progress := 0 } : VideoStore).frames.length ∧
      ∀ f ∈ s2.frames,
        f.adjustments = ({ goodFrame with
          adjustments := { defaultAdjustments with exposure := 7 } }).adjustments :=
  c8_applyCurrentToAll_copies _ 0 _ rfl rfl

/-- Indexing a mapIdx list: the element at position i is f i applied to the
original element. -/
theorem get?_mapIdx (l : List VideoFrame) (f : ℕ → VideoFrame → VideoFrame)
    (i : ℕ) : (l.mapIdx f).get? i = (l.get? i).map (f i) := by
  simp [List.mapIdx_eq_enum_map, List.get?_eq_getElem?, List.getElem?_map,
    List.getElem?_enum]
  cases h : l[i]? <;> simp

/-- C6 counterexample: updating the exposure of a concrete one-frame store to
500 stores 500 verbatim, which lies outside the declared range [-100, 100];
the claim that the stored value is clamped into the declared range is false. -/
theorem c6_counterexample :
    ((updateFrameAdjustments storeOneFrame 0 exposure500Update).frames.get? 0).map
        (fun f => f.adjustments.exposure) = some 500 ∧
    ¬ (exposureSliderMin ≤ 500 ∧ (500 : ℚ) ≤ exposureSliderMax) := by
  constructor
  · rfl
  · intro h
    exact absurd h.2 (by norm_num [exposureSliderMax])

/-- C6 amended: updateFrameAdjustments never rejects an update; it merges the
updated values verbatim into the indexed frame, without any clamping, so an
out-of-range value is stored unchanged. -/
theorem c6_update_stores_unclamped (s : VideoStore) (i : ℕ)
    (p : AdjustmentsUpdate) (v : ℚ) (hi : i < s.frames.length)
    (hv : p.exposure = some v) :
    (updateFrameAdjustments s i p).frames.length = s.frames.length ∧
    ((updateFrameAdjustments s i p).frames.get? i).map
      (fun f => f.adjustments.exposure) = some v := by
  constructor
  · simp [updateFrameAdjustments]
  · show ((s.frames.mapIdx (fun idx f =>
        if idx = i then { f with adjustments := mergeAdjustments f.adjustments p }
        else f)).get? i).map (fun f => f.adjustments.exposure) = some v
    rw [get?_mapIdx]
    rw [List.get?_eq_get hi]
    simp [mergeAdjustments, hv]

/-- Witness for C6 amended at the concrete one-frame store and exposure 500. -/
theorem c6_update_stores_unclamped_witness :
    (updateFrameAdjustments storeOneFrame 0 exposure500Update).frames.length =
      storeOneFrame.frames.length ∧
    ((updateFrameAdjustments storeOneFrame 0 exposure500Update).frames.get? 0).map
      (fun f => f.adjustments.exposure) = some 500 :=
  c6_update_stores_unclamped storeOneFrame 0 exposure500Update 500
    (by decide) rfl

/-- C7: for every frame sequence and nonzero nominal fps, the frame rate
passed to the FFmpeg strategy equals the spec formula: the measured average
rate (frames-1)/(last-first timestamp) when there are at least two frames and
positive elapsed time, else the nominal fps, clamped to [1, 60].  (When the
nominal fps is 0 — a falsy value in JavaScript — the code substitutes 30
before clamping, which is the one divergence from the spec wording.) -/
theorem c7_framerate_matches_spec (frames : List VideoFrame) (fps : ℚ)
    (h : fps ≠ 0) :
    computeExportFrameRate frames fps = specFrameRate frames fps := by
  unfold computeExportFrameRate specFrameRate
  rw [if_neg h]
  rfl

/-- Witness for C7 at two frames one second apart and nominal fps 30: the
measured rate 1 is used. -/
theorem c7_framerate_matches_spec_witness :
    (30 : ℚ) ≠ 0 ∧
    computeExportFrameRate [goodFrame, { goodFrame with id := "g2", timestamp := 1 }] 30 =
      specFrameRate [goodFrame, { goodFrame with id := "g2", timestamp := 1 }] 30 ∧
    computeExportFrameRate [goodFrame, { goodFrame with id := "g2", timestamp := 1 }] 30 = 1 :=
  ⟨by norm_num, c7_framerate_matches_spec _ 30 (by norm_num),
   by norm_num [computeExportFrameRate, goodFrame, minQ, maxQ, List.getLast?]⟩

/-- Unfolding of the simple-export frame fold when every payload carries the
data-image prefix: the output collects, per frame, the processed data or the
original payload, and the counter counts exactly the processing failures. -/
theorem simpleFold_spec (proc : VideoFrame → Option String) :
    ∀ (frames : List VideoFrame) (acc : List String × ℕ),
    (∀ f ∈ frames, jsStartsWith f.imageData "data:image/" = true) →
    frames.foldl (simpleFrameStep proc) acc =
      (acc.1 ++ frames.map (fun f => (proc f).getD f.imageData),
       acc.2 + frames.countP (fun f => (proc f).isNone)) := by
  intro frames
  induction frames with
  | nil => intro acc _; simp
  | cons f fs ih =>
    intro acc hvalid
    have hf : jsStartsWith f.imageData "data:image/" = true := hvalid f (by simp)
    have hfs : ∀ g ∈ fs, jsStartsWith g.imageData "data:image/" = true := by
      intro g hg
      exact hvalid g (by simp [hg])
    have hne : (f.imageData == "") = false := by
      rcases h : f.imageData == "" with _ | _
      · rfl
      · exfalso
        have hempty : f.imageData = "" := eq_of_beq h
        rw [hempty] at hf
        simp [jsStartsWith, List.isPrefixOf] at hf
    rw [List.foldl_cons, ih (simpleFrameStep proc acc f) hfs]
    cases hproc : proc f with
    | some d =>
      simp [simpleFrameStep, hne, hf, hproc, List.countP_cons, List.append_assoc]
    | none =>
      simp [simpleFrameStep, hne, hf, hproc, List.countP_cons, List.append_assoc]
      omega

/-- C2 amended: when every frame payload carries the data-image prefix, a
per-frame processing failure does not abort the job in either exporter: the
simple-export phase outputs one entry per input frame (the processed data, or
the unmodified original payload on failure) and its failedFrames counter
counts exactly the failed frames, while the FFmpeg phase also outputs one
entry per input frame.  (A corrupt payload without the prefix is instead
rejected by exportVideo input validation, see the counterexample.) -/
theorem c2_frame_failure_recovery (frames : List VideoFrame)
    (proc : VideoFrame → Option String)
    (hvalid : ∀ f ∈ frames, jsStartsWith f.imageData "data:image/" = true) :
    processFramesSimple proc frames =
      (frames.map (fun f => (proc f).getD f.imageData),
       frames.countP (fun f => (proc f).isNone)) ∧
    (processFramesFFmpeg proc frames).length = frames.length := by
  constructor
  · have h := simpleFold_spec proc frames ([], 0) hvalid
    simpa [processFramesSimple] using h
  · simp [processFramesFFmpeg]

/-- Witness for C2 amended at the concrete 50-frame batch whose first frame
fails processing: 50 outputs, failed count 1. -/
theorem c2_frame_failure_recovery_witness :
    (processFramesSimple fragileProc mixedBatch50 =
      (mixedBatch50.map (fun f => (fragileProc f).getD f.imageData),
       mixedBatch50.countP (fun f => (fragileProc f).isNone)) ∧
    (processFramesFFmpeg fragileProc mixedBatch50).length = mixedBatch50.length) ∧
    mixedBatch50.length = 50 ∧
    mixedBatch50.countP (fun f => (fragileProc f).isNone) = 1 :=
  ⟨c2_frame_failure_recovery mixedBatch50 fragileProc (by decide), by decide, by decide⟩

/-- C2 counterexample: for a 50-frame export in which exactly one frame has a
corrupt payload (one that fails the data-image prefix check), exportVideo
does not complete: its input validation rejects the whole job, so the claim
that the export still completes with a failed-frame count of 1 is false. -/
theorem c2_counterexample :
    corruptBatch50.length = 50 ∧
    validateExportInput corruptBatch50 true =
      Except.error "frames have invalid image data" := by
  constructor
  · rfl
  · rfl

/-- Bounds for the ratio (i+1)/n when i < n. -/
theorem ratioSucc_bounds (n i : ℕ) (hi : i < n) :
    0 < ((i : ℚ) + 1) / (n : ℚ) ∧ ((i : ℚ) + 1) / (n : ℚ) ≤ 1 := by
  have hn : (0 : ℚ) < (n : ℚ) := by
    exact_mod_cast Nat.pos_of_ne_zero (by omega)
  constructor
  · apply div_pos _ hn
    positivity
  · rw [div_le_one hn]
    exact_mod_cast hi

/-- Bounds for the ratio i/n when i < n. -/
theorem ratioCur_bounds (n i : ℕ) (hi : i < n) :
    0 ≤ (i : ℚ) / (n : ℚ) ∧ (i : ℚ) / (n : ℚ) < 1 := by
  have hn : (0 : ℚ) < (n : ℚ) := by
    exact_mod_cast Nat.pos_of_ne_zero (by omega)
  constructor
  · positivity
  · rw [div_lt_one hn]
    exact_mod_cast hi

/-- Monotone maps over List.range are pairwise nondecreasing. -/
theorem pairwise_map_range (f : ℕ → ℚ) (n : ℕ)
    (hf : ∀ i j, i < j → f i ≤ f j) :
    ((List.range n).map f).Pairwise (· ≤ ·) := by
  rw [List.pairwise_map]
  exact (List.pairwise_lt_range n).imp (fun h => hf _ _ h)

/-- Append preserves pairwise nondecreasing when a pivot value separates the
two parts. -/
theorem pairwise_append_bound (c : ℚ) {l1 l2 : List ℚ}
    (h1 : l1.Pairwise (· ≤ ·)) (h2 : l2.Pairwise (· ≤ ·))
    (hu : ∀ a ∈ l1, a ≤ c) (hl : ∀ b ∈ l2, c ≤ b) :
    (l1 ++ l2).Pairwise (· ≤ ·) :=
  List.pairwise_append.mpr ⟨h1, h2, fun a ha b hb => le_trans (hu a ha) (hl b hb)⟩

/-- C3 counterexample: in a job where the FFmpeg strategy fails at the
encoding step (after reporting 85) and the orchestrator falls through to the
simple strategy, the reported progress sequence is not monotonically
non-decreasing: the orchestrator resets progress to 0 between strategies. -/
theorem c3_counterexample :
    ¬ (exportTraceStrategyFallback 1).Pairwise (· ≤ ·) := by
  intro h
  rw [exportTraceStrategyFallback, List.pairwise_append] at h
  have h85 : (85 : ℚ) ∈ ffmpegTraceEncodeFailure 1 := by
    simp [ffmpegTraceEncodeFailure]
  have h0 : (0 : ℚ) ∈ 0 :: simpleTraceSuccess 1 := List.mem_cons_self _ _
  have := h.2.2 85 h85 0 h0
  norm_num at this

/-- C3 amended: within one encoding strategy attempt the progress values are
monotonically non-decreasing and a successful attempt ends at exactly 100;
across a job with strategy fallthrough the orchestrator emits a bare 0
between the failed FFmpeg trace and the simple-export trace, so the whole-job
sequence is not non-decreasing. -/
theorem c3_progress_monotone_within_strategy (n : ℕ) (hn : 1 ≤ n) :
    (ffmpegTraceSuccess n).Pairwise (· ≤ ·) ∧
    (ffmpegTraceSuccess n).getLast? = some 100 ∧
    (simpleTraceSuccess n).Pairwise (· ≤ ·) ∧
    (simpleTraceSuccess n).getLast? = some 100 ∧
    exportTraceStrategyFallback n =
      ffmpegTraceEncodeFailure n ++ 0 :: simpleTraceSuccess n := by
  have hnpos : (0 : ℚ) < (n : ℚ) := by exact_mod_cast hn
  have hA : ∀ x ∈ (List.range n).map (ffmpegFrameProgress n), 10 ≤ x ∧ x ≤ 50 := by
    intro x hx
    rcases List.mem_map.mp hx with ⟨i, hi, rfl⟩
    rw [List.mem_range] at hi
    rcases ratioSucc_bounds n i hi with ⟨h1, h2⟩
    unfold ffmpegFrameProgress
    constructor <;> nlinarith
  have hB : ∀ x ∈ (List.range n).map (ffmpegWriteProgress n), 55 ≤ x ∧ x ≤ 70 := by
    intro x hx
    rcases List.mem_map.mp hx with ⟨i, hi, rfl⟩
    rw [List.mem_range] at hi
    rcases ratioSucc_bounds n i hi with ⟨h1, h2⟩
    unfold ffmpegWriteProgress
    constructor <;> nlinarith
  have hG1 : ∀ x ∈ (List.range n).map (simpleFrameProgress n), 0 ≤ x ∧ x ≤ 60 := by
    intro x hx
    rcases List.mem_map.mp hx with ⟨i, hi, rfl⟩
    rw [List.mem_range] at hi
    rcases ratioCur_bounds n i hi with ⟨h1, h2⟩
    unfold simpleFrameProgress
    constructor <;> nlinarith
  have hG2 : ∀ x ∈ (List.range n).map (simpleRenderProgress n), 80 ≤ x ∧ x ≤ 100 := by
    intro x hx
    rcases List.mem_map.mp hx with ⟨i, hi, rfl⟩
    rw [List.mem_range] at hi
    rcases ratioSucc_bounds n i hi with ⟨h1, h2⟩
    unfold simpleRenderProgress
    constructor <;> nlinarith
  have hpA : ((List.range n).map (ffmpegFrameProgress n)).Pairwise (· ≤ ·) := by
    apply pairwise_map_range
    intro i j hij
    unfold ffmpegFrameProgress
    have hij' : ((i : ℚ) + 1) ≤ ((j : ℚ) + 1) := by
      have : (i : ℚ) ≤ (j : ℚ) := by exact_mod_cast le_of_lt hij
      linarith
    gcongr
  have hpB : ((List.range n).map (ffmpegWriteProgress n)).Pairwise (· ≤ ·) := by
    apply pairwise_map_range
    intro i j hij
    unfold ffmpegWriteProgress
    have hij' : ((i : ℚ) + 1) ≤ ((j : ℚ) + 1) := by
      have : (i : ℚ) ≤ (j : ℚ) := by exact_mod_cast le_of_lt hij
      linarith
    gcongr
  have hpG1 : ((List.range n).map (simpleFrameProgress n)).Pairwise (· ≤ ·) := by
    apply pairwise_map_range
    intro i j hij
    unfold simpleFrameProgress
    have hij' : (i : ℚ) ≤ (j : ℚ) := by exact_mod_cast le_of_lt hij
    gcongr
  have hpG2 : ((List.range n).map (simpleRenderProgress n)).Pairwise (· ≤ ·) := by
    apply pairwise_map_range
    intro i j hij
    unfold simpleRenderProgress
    have hij' : ((i : ℚ) + 1) ≤ ((j : ℚ) + 1) := by
      have : (i : ℚ) ≤ (j : ℚ) := by exact_mod_cast le_of_lt hij
      linarith
    gcongr
  refine ⟨?_, ?_, ?_, ?_, rfl⟩
  · unfold ffmpegTraceSuccess
    rw [List.append_assoc, List.append_assoc, List.append_assoc]
    apply pairwise_append_bound 10 (by decide)
    · apply pairwise_append_bound 55 hpA
      · apply pairwise_append_bound 55 (by decide)
        · apply pairwise_append_bound 75 hpB (by decide)
          · intro a ha
            exact le_trans (hB a ha).2 (by norm_num)
          · intro b hb
            simp only [List.mem_cons, List.not_mem_nil, or_false] at hb
            rcases hb with h | h | h | h | h | h <;> rw [h] <;> norm_num
        · intro a ha
          simp only [List.mem_singleton] at ha
          rw [ha]
        · intro b hb
          rw [List.mem_append] at hb
          rcases hb with h | h
          · exact (hB b h).1
          · simp only [List.mem_cons, List.not_mem_nil, or_false] at h
            rcases h with h | h | h | h | h | h <;> rw [h] <;> norm_num
      · intro a ha
        exact le_trans (hA a ha).2 (by norm_num)
      · intro b hb
        rw [List.mem_append] at hb
        rcases hb with h | h
        · simp only [List.mem_singleton] at h
          rw [h]
        · rw [List.mem_append] at h
          rcases h with h | h
          · exact (hB b h).1
          · simp only [List.mem_cons, List.not_mem_nil, or_false] at h
            rcases h with h | h | h | h | h | h <;> rw [h] <;> norm_num
    · intro a ha
      simp only [List.mem_cons, List.not_mem_nil, or_false] at ha
      rcases ha with h | h | h <;> rw [h] <;> norm_num
    · intro b hb
      rw [List.mem_append] at hb
      rcases hb with h | h
      · exact (hA b h).1
      · rw [List.mem_append] at h
        rcases h with h | h
        · simp only [List.mem_singleton] at h
          rw [h]; norm_num
        · rw [List.mem_append] at h
          rcases h with h | h
          · exact le_trans (by norm_num) (hB b h).1
          · simp only [List.mem_cons, List.not_mem_nil, or_false] at h
            rcases h with h | h | h | h | h | h <;> rw [h] <;> norm_num
  · have hre : ffmpegTraceSuccess n =
        ([0, 5, 10] ++ (List.range n).map (ffmpegFrameProgress n) ++ [55]
          ++ (List.range n).map (ffmpegWriteProgress n)
          ++ [75, 80, 85, 95, 98]) ++ [100] := by
      simp [ffmpegTraceSuccess]
    rw [hre, List.getLast?_append]
    simp
  · unfold simpleTraceSuccess
    rw [List.append_assoc, List.append_assoc]
    apply pairwise_append_bound 70
    · rw [List.pairwise_cons]
      refine ⟨fun b hb => (hG1 b hb).1, hpG1⟩
    · apply pairwise_append_bound 70 (by decide)
      · apply pairwise_append_bound 100 hpG2 (by decide)
        · intro a ha
          exact (hG2 a ha).2
        · intro b hb
          simp only [List.mem_singleton] at hb
          rw [hb]
      · intro a ha
        simp only [List.mem_singleton] at ha
        rw [ha]
      · intro b hb
        rw [List.mem_append] at hb
        rcases hb with h | h
        · exact le_trans (by norm_num) (hG2 b h).1
        · simp only [List.mem_singleton] at h
          rw [h]; norm_num
    · intro a ha
      rcases List.mem_cons.mp ha with h | h
      · rw [h]; norm_num
      · exact le_trans (hG1 a h).2 (by norm_num)
    · intro b hb
      rw [List.mem_append] at hb
      rcases hb with h | h
      · simp only [List.mem_singleton] at h
        rw [h]
      · rw [List.mem_append] at h
        rcases h with h | h
        · exact le_trans (by norm_num) (hG2 b h).1
        · simp only [List.mem_singleton] at h
          rw [h]; norm_num
  · have hre : simpleTraceSuccess n =
        (0 :: (List.range n).map (simpleFrameProgress n) ++ [70]
          ++ (List.range n).map (simpleRenderProgress n)) ++ [100] := rfl
    rw [hre, List.getLast?_append]
    simp

/-- Witness for C3 amended at a one-frame job. -/
theorem c3_progress_monotone_within_strategy_witness :
    (ffmpegTraceSuccess 1).Pairwise (· ≤ ·) ∧
    (ffmpegTraceSuccess 1).getLast? = some 100 ∧
    (simpleTraceSuccess 1).Pairwise (· ≤ ·) ∧
    (simpleTraceSuccess 1).getLast? = some 100 ∧
    exportTraceStrategyFallback 1 =
      ffmpegTraceEncodeFailure 1 ++ 0 :: simpleTraceSuccess 1 :=
  c3_progress_monotone_within_strategy 1 (by norm_num)

/-- Mixing a value with itself is the identity. -/
theorem mixQ_self (a t : ℚ) : mixQ a a t = a := by
  unfold mixQ
  ring

/-- Componentwise form of mixQ_self. -/
theorem mixV3_self (c : V3) (t : ℚ) : mixV3 c c t = c := by
  simp [mixV3, mixQ_self]

/-- Bounds of the clamp. -/
theorem clampQ_mem (v lo hi : ℚ) (h : lo ≤ hi) :
    lo ≤ clampQ v lo hi ∧ clampQ v lo hi ≤ hi := by
  unfold clampQ minQ maxQ
  split_ifs <;> constructor <;> linarith

/-- The clamp is the identity on values already in range. -/
theorem clampQ_of_mem (v lo hi : ℚ) (h1 : lo ≤ v) (h2 : v ≤ hi) :
    clampQ v lo hi = v := by
  unfold clampQ minQ maxQ
  split_ifs <;> first | rfl | linarith

/-- The tone map always lands in [0,1] because it ends in a clamp. -/
theorem appleToneMap_mem (v s t : ℚ) :
    0 ≤ appleToneMap v s t ∧ appleToneMap v s t ≤ 1 := by
  unfold appleToneMap
  exact clampQ_mem _ _ _ (by norm_num)

/-- Clamping the tone map output changes nothing. -/
theorem clampQ_appleToneMap (v s t : ℚ) :
    clampQ (appleToneMap v s t) 0 1 = appleToneMap v s t :=
  clampQ_of_mem _ _ _ (appleToneMap_mem v s t).1 (appleToneMap_mem v s t).2

/-- Highlights/shadows at strength 0 is the identity. -/
theorem adjustHighlightsShadows_zero (c : V3) :
    adjustHighlightsShadows c 0 0 = c := by
  simp [adjustHighlightsShadows, addV3, smulV3]

/-- Adding a zero scalar is the identity. -/
theorem addS3_zero (c : V3) : addS3 c 0 = c := by
  simp [addS3]

/-- Contrast 0 is the identity. -/
theorem applyContrastStage_zero (c : V3) : applyContrastStage c 0 = c := by
  simp [applyContrastStage]

/-- Black/white point 0 is the identity. -/
theorem applyBlackWhiteStage_zero (c : V3) : applyBlackWhiteStage c 0 0 = c := by
  simp [applyBlackWhiteStage]

/-- The rgb2hsv conversion maps a gray pixel to hue 0, saturation 0 and the
gray value. -/
theorem rgb2hsv_gray (g : ℚ) : rgb2hsv ⟨g, g, g⟩ = ⟨0, 0, g⟩ := by
  simp [rgb2hsv, mix4, mixQ, stepQ, minQ]

/-- The hsv2rgb conversion maps saturation 0 back to the gray value,
whatever the hue. -/
theorem hsv2rgb_gray (h g : ℚ) : hsv2rgb ⟨h, 0, g⟩ = ⟨g, g, g⟩ := by
  simp [hsv2rgb, mixQ]

/-- Vibrance 0 on a gray pixel is the identity (the HSV round trip is exact
on grays). -/
theorem adjustVibrance_gray (satLen g : ℚ) :
    adjustVibrance satLen ⟨g, g, g⟩ 0 = ⟨g, g, g⟩ := by
  simp [adjustVibrance, rgb2hsv_gray, hsv2rgb_gray]

/-- Saturation 0 is the identity (the mix weight becomes 1). -/
theorem applySaturationStage_zero (c : V3) : applySaturationStage c 0 = c := by
  simp [applySaturationStage, mixV3, mixQ]

/-- Temperature and tint 0 are the identity. -/
theorem adjustTemperature_zero (c : V3) : adjustTemperature c 0 0 = c := by
  simp [adjustTemperature]

/-- Hue shift 0 on a gray pixel is the identity. -/
theorem applyHueShift_gray (g : ℚ) : applyHueShift ⟨g, g, g⟩ 0 = ⟨g, g, g⟩ := by
  simp [applyHueShift, rgb2hsv_gray, fractQ, hsv2rgb_gray]

/-- Color balance 0 is the identity. -/
theorem applyColorBalance_zero (c : V3) : applyColorBalance c 0 = c := by
  simp [applyColorBalance]

/-- Tone curve with lights = darks = 0 is the identity in both branches. -/
theorem applyToneCurve_zero (c : V3) : applyToneCurve c 0 0 = c := by
  by_cases h : dotLum c > 0.5 <;> simp [applyToneCurve, h, smulV3]

/-- Dehaze 0 is the identity. -/
theorem applyDehaze_zero (c : V3) : applyDehaze c 0 = c := by
  simp [applyDehaze, mixV3, mixQ]

/-- Clarity 0 is the identity. -/
theorem adjustClarity_zero (c : V3) : adjustClarity c 0 = c := by
  simp [adjustClarity, addS3]

/-- Brilliance 0 is the identity. -/
theorem applyBrillianceStage_zero (c : V3) : applyBrillianceStage c 0 = c := by
  simp [applyBrillianceStage, addV3, smulV3]

/-- Color grading with all hues and saturations 0 is the identity on gray
pixels, in all three luminance bands. -/
theorem applyColorGrading_gray (g : ℚ) :
    applyColorGrading ⟨g, g, g⟩ 0 0 0 0 0 0 = ⟨g, g, g⟩ := by
  simp [applyColorGrading, rgb2hsv_gray, fractQ, hsv2rgb_gray, mixV3_self]

/-- All five creative effects at strength 0 are the identity (every guard
fails). -/
theorem applyCreativeEffects_zero (c : V3) :
    applyCreativeEffects c 0 0 0 0 0 = c := by
  simp [applyCreativeEffects]

/-- Fade 0 is the identity. -/
theorem applyFade_zero (c : V3) : applyFade c 0 = c := by
  simp [applyFade, mixV3, mixQ]

/-- Vignette amount 0 multiplies by 1. -/
theorem vignetteQ_zero (dist feather : ℚ) : vignetteQ dist 0 feather = 1 := by
  simp [vignetteQ]

/-- Grain amount 0 multiplies by 1. -/
theorem grainQ_zero (noiseVal s : ℚ) : grainQ noiseVal 0 s = 1 := by
  simp [grainQ, mixQ]

/-- Scaling by 1 is the identity. -/
theorem smulV3_one (c : V3) : smulV3 1 c = c := by
  simp [smulV3]

/-- Scaling a gray pixel componentwise. -/
theorem smulV3_gray (k g : ℚ) : smulV3 k ⟨g, g, g⟩ = ⟨k * g, k * g, k * g⟩ := rfl

/-- Evaluation of the full shader on a gray pixel when every adjustment is at
its default except possibly the exposure: every stage other than the
exposure gain and the tone map is the identity, so the output is the
per-channel tone map of the gained gray value.  e2 stands for
exp2(exposure/100), supplied by the caller. -/
theorem shaderMain_gray_defaults (expo e2 dist noiseVal satLen g : ℚ) :
    shaderMain (toUniforms { defaultAdjustments with exposure := expo })
        e2 dist noiseVal satLen ⟨g, g, g⟩ =
      ⟨appleToneMap (e2 * g) 1 1, appleToneMap (e2 * g) 1 1,
       appleToneMap (e2 * g) 1 1⟩ := by
  have hu : toUniforms { defaultAdjustments with exposure := expo } =
      { defaultAdjustments with exposure := expo / 100 } := by
    simp [toUniforms, defaultAdjustments]
  rw [hu]
  unfold shaderMain shaderPreClamp
  simp only [defaultAdjustments, smulV3_gray, zero_mul,
    adjustHighlightsShadows_zero, addS3_zero, applyContrastStage_zero,
    applyBlackWhiteStage_zero, adjustVibrance_gray, applySaturationStage_zero,
    adjustTemperature_zero, applyHueShift_gray, applyColorBalance_zero,
    applyToneCurve_zero, applyDehaze_zero, adjustClarity_zero,
    applyBrillianceStage_zero, applyColorGrading_gray, toneMapStage,
    applyCreativeEffects_zero, applyFade_zero, vignetteQ_zero, grainQ_zero,
    smulV3_one, one_mul, clampStage, clampQ_appleToneMap]

/-- C1 counterexample: with every parameter at its declared default the Color
Pipeline is not pixel-equivalent to the input within any encoding tolerance:
the tone-mapping stage is applied unconditionally, so the mid-gray input
channel 1/2 comes out above 1/2 + 1/10 (exact value 257/417, about 0.616,
a shift of almost 30 8-bit levels).  The exposure gain exp2(0) is 1. -/
theorem c1_counterexample :
    (shaderMain (toUniforms defaultAdjustments) 1 0 0 0
        ⟨1/2, 1/2, 1/2⟩).x > 1/2 + 1/10 := by
  have h := shaderMain_gray_defaults 0 1 0 0 0 (1/2)
  rw [show ({ defaultAdjustments with exposure := (0 : ℚ) } : Adjustments) =
      defaultAdjustments from rfl] at h
  rw [h]
  norm_num [appleToneMap, clampQ, minQ, maxQ]

/-- C1 amended: with every parameter at its declared default, every stage of
the fragment shader except the tone map is the identity; on gray input
pixels the output equals appleToneMap applied per channel, which is not
pixel-equivalent to the input (see the counterexample at mid-gray).  The
exposure gain exp2(0/100) is exactly 1. -/
theorem c1_defaults_reduce_to_tonemap (dist noiseVal satLen g : ℚ) :
    shaderMain (toUniforms defaultAdjustments) 1 dist noiseVal satLen
        ⟨g, g, g⟩ =
      ⟨appleToneMap g 1 1, appleToneMap g 1 1, appleToneMap g 1 1⟩ := by
  have h := shaderMain_gray_defaults 0 1 dist noiseVal satLen g
  rw [show ({ defaultAdjustments with exposure := (0 : ℚ) } : Adjustments) =
      defaultAdjustments from rfl] at h
  simpa using h

/-- C5 counterexample: with exposure = 100 and every other parameter at its
default, the output channel is not always at least the input channel: the
gray input 1/200 is doubled by the exposure gain exp2(1) = 2 and then pushed
down to 551/146143, about 0.0038, by the tone map — strictly below the input
1/200 = 0.005.  Monotone brightening fails. -/
theorem c5_counterexample :
    (shaderMain (toUniforms exposure100Adjustments) 2 0 0 0
        ⟨1/200, 1/200, 1/200⟩).x < 1/200 := by
  have h := shaderMain_gray_defaults 100 2 0 0 0 (1/200)
  rw [show ({ defaultAdjustments with exposure := (100 : ℚ) } : Adjustments) =
      exposure100Adjustments from rfl] at h
  rw [h]
  norm_num [appleToneMap, clampQ, minQ, maxQ]

/-- C5 amended: for every uniform binding, every environment and every input
pixel, each channel of the shader output lies in [0,1] (the final clamp);
the monotone-brightening half of the original claim is refuted by the
counterexample above. -/
theorem c5_output_clamped (u : Adjustments) (e2 dist noiseVal satLen : ℚ)
    (c : V3) :
    (0 ≤ (shaderMain u e2 dist noiseVal satLen c).x ∧
      (shaderMain u e2 dist noiseVal satLen c).x ≤ 1) ∧
    (0 ≤ (shaderMain u e2 dist noiseVal satLen c).y ∧
      (shaderMain u e2 dist noiseVal satLen c).y ≤ 1) ∧
    (0 ≤ (shaderMain u e2 dist noiseVal satLen c).z ∧
      (shaderMain u e2 dist noiseVal satLen c).z ≤ 1) := by
  unfold shaderMain clampStage
  exact ⟨clampQ_mem _ _ _ (by norm_num), clampQ_mem _ _ _ (by norm_num),
    clampQ_mem _ _ _ (by norm_num)⟩

/-- Characters produced by collapseRuns are the replacement character or
non-matching characters of the input. -/
theorem mem_collapseRuns (p : Char → Bool) (rep : Char) :
    ∀ (l : List Char) (b : Bool) (c : Char), c ∈ collapseRuns p rep b l →
      c = rep ∨ (c ∈ l ∧ p c = false) := by
  intro l
  induction l with
  | nil =>
    intro b c hc
    simp [collapseRuns] at hc
  | cons a as ih =>
    intro b c hc
    by_cases hpa : p a = true
    · cases b with
      | true =>
        simp only [collapseRuns, hpa, if_true] at hc
        rcases ih true c hc with h | ⟨h1, h2⟩
        · exact Or.inl h
        · exact Or.inr ⟨List.mem_cons_of_mem a h1, h2⟩
      | false =>
        simp only [collapseRuns, hpa, if_true, Bool.false_eq_true, if_false,
          List.mem_cons] at hc
        rcases hc with h | hc
        · exact Or.inl h
        · rcases ih true c hc with h | ⟨h1, h2⟩
          · exact Or.inl h
          · exact Or.inr ⟨List.mem_cons_of_mem a h1, h2⟩
    · have hpa' : p a = false := by
        revert hpa
        cases p a <;> simp
      simp only [collapseRuns, hpa', Bool.false_eq_true, if_false,
        List.mem_cons] at hc
      rcases hc with h | hc
      · exact Or.inr ⟨by simp [h], by rw [h]; exact hpa'⟩
      · rcases ih false c hc with h | ⟨h1, h2⟩
        · exact Or.inl h
        · exact Or.inr ⟨List.mem_cons_of_mem a h1, h2⟩

/-- Characters produced by replaceFirstChar are the replacement character or
characters of the input. -/
theorem mem_replaceFirstChar (target rep : Char) :
    ∀ (l : List Char) (c : Char), c ∈ replaceFirstChar target rep l →
      c = rep ∨ c ∈ l := by
  intro l
  induction l with
  | nil =>
    intro c hc
    simp [replaceFirstChar] at hc
  | cons a as ih =>
    intro c hc
    by_cases ha : (a == target) = true
    · simp only [replaceFirstChar, ha, if_true, List.mem_cons] at hc
      rcases hc with h | h
      · exact Or.inl h
      · exact Or.inr (List.mem_cons_of_mem a h)
    · simp only [replaceFirstChar, ha, Bool.false_eq_true, if_false,
        List.mem_cons] at hc
      rcases hc with h | hc
      · exact Or.inr (by simp [h])
      · rcases ih c hc with h | h
        · exact Or.inl h
        · exact Or.inr (List.mem_cons_of_mem a h)

/-- Double-ended dropWhile keeps only characters of the input. -/
theorem mem_trimEnds {p : Char → Bool} {l : List Char} {c : Char}
    (hc : c ∈ ((l.dropWhile p).reverse.dropWhile p).reverse) : c ∈ l := by
  rw [List.mem_reverse] at hc
  have h1 : c ∈ (l.dropWhile p).reverse := (List.dropWhile_sublist p).mem hc
  rw [List.mem_reverse] at h1
  exact (List.dropWhile_sublist p).mem h1

/-- Every character of a sanitized filename is a word character, a dot or a
hyphen; in particular no whitespace survives. -/
theorem sanitizeFilename_chars (s : String) :
    ∀ c ∈ (sanitizeFilename s).data, isWordCharJS c = true ∨ c = '.' ∨ c = '-' := by
  intro c hc
  have h6 : c ∈ ((((collapseRuns (fun c => c == '_') '_' false
      (collapseRuns isSpaceJS '_' false
        ((s.data.filter (fun c => !(specialChars1.contains c))).filter keepSet2))).dropWhile
          isSepChar).reverse.dropWhile isSepChar).reverse.take 100) :=
    mem_trimEnds hc
  have h5 : c ∈ (((collapseRuns (fun c => c == '_') '_' false
      (collapseRuns isSpaceJS '_' false
        ((s.data.filter (fun c => !(specialChars1.contains c))).filter keepSet2))).dropWhile
          isSepChar).reverse.dropWhile isSepChar).reverse :=
    (List.take_sublist 100 _).mem h6
  have h4 : c ∈ collapseRuns (fun c => c == '_') '_' false
      (collapseRuns isSpaceJS '_' false
        ((s.data.filter (fun c => !(specialChars1.contains c))).filter keepSet2)) :=
    mem_trimEnds h5
  rcases mem_collapseRuns _ _ _ _ _ h4 with h | ⟨h3, _⟩
  · left
    rw [h]
    decide
  · rcases mem_collapseRuns _ _ _ _ _ h3 with h | ⟨h2, hsp⟩
    · left
      rw [h]
      decide
    · have hk : keepSet2 c = true := (List.mem_filter.mp h2).2
      unfold keepSet2 at hk
      rw [hsp] at hk
      simp only [Bool.or_false, Bool.false_or, Bool.or_eq_true, beq_iff_eq] at hk
      rcases hk with (h | h) | h
      · exact Or.inl h
      · exact Or.inr (Or.inl h)
      · exact Or.inr (Or.inr h)

/-- Every character of the timestamp component is a word character, provided
the first 16 characters of the ISO string are digits, hyphens, colons or T. -/
theorem mkTimestamp_chars (iso : String)
    (hiso : ∀ c ∈ iso.data.take 16,
      c.isDigit = true ∨ c = '-' ∨ c = ':' ∨ c = 'T') :
    ∀ c ∈ (mkTimestamp iso).data, isWordCharJS c = true := by
  intro c hc
  rcases mem_replaceFirstChar _ _ _ _ hc with h | h
  · rw [h]
    decide
  · rcases List.mem_filter.mp h with ⟨hmem, hcond⟩
    rcases hiso c hmem with hd | h1 | h1 | h1
    · simp [isWordCharJS, hd]
    · rw [h1] at hcond
      simp at hcond
    · rw [h1] at hcond
      simp at hcond
    · rw [h1]
      decide

/-- The chosen extension consists of word characters whenever the format is
one of the accepted container extensions. -/
theorem chooseExtension_chars (mime format : String)
    (hfmt : format ∈ acceptedFormats) :
    ∀ c ∈ (chooseExtension mime format).data, isWordCharJS c = true := by
  have hlower : ∀ c ∈ (toLowerJS format).data, isWordCharJS c = true := by
    fin_cases hfmt <;> decide
  intro c hc
  unfold chooseExtension at hc
  split_ifs at hc
  · exact hlower c hc
  · exact (by decide : ∀ c ∈ ("webm" : String).data, isWordCharJS c = true) c hc
  · exact (by decide : ∀ c ∈ ("mp4" : String).data, isWordCharJS c = true) c hc
  · exact (by decide : ∀ c ∈ ("mov" : String).data, isWordCharJS c = true) c hc
  · exact hlower c hc

/-- C9: for every original display name, accepted container format, declared
media type and well-formed ISO timestamp, the generated output filename
contains only word characters, dots and hyphens (spaces having been collapsed
to single underscores), equals the sanitized base name — or the fixed
fallback base name when sanitization empties the string — followed by an
underscore, the timestamp component and an extension chosen from the media
type when it names webm/mp4/mov, else the original format; and the name
"My Video! (final).mov" sanitizes to My_Video_final with no special
characters surviving. -/
theorem c9_filename_sanitized (name format mime iso : String)
    (hfmt : format ∈ acceptedFormats)
    (hiso : ∀ c ∈ iso.data.take 16,
      c.isDigit = true ∨ c = '-' ∨ c = ':' ∨ c = 'T') :
    (∀ c ∈ (generateCleanFilename name format mime iso).data,
        isWordCharJS c = true ∨ c = '.' ∨ c = '-') ∧
    generateCleanFilename name format mime iso =
      (if sanitizeFilename (stripExtension name) == "" then "edited_video"
       else sanitizeFilename (stripExtension name))
        ++ "_" ++ mkTimestamp iso ++ "." ++ chooseExtension mime format ∧
    (sanitizeFilename (stripExtension name) = "" →
      generateCleanFilename name format mime iso =
        "edited_video" ++ "_" ++ mkTimestamp iso ++ "."
          ++ chooseExtension mime format) ∧
    (name = "My Video! (final).mov" →
      sanitizeFilename (stripExtension name) = "My_Video_final") := by
  have hshape : generateCleanFilename name format mime iso =
      (if sanitizeFilename (stripExtension name) == "" then "edited_video"
       else sanitizeFilename (stripExtension name))
        ++ "_" ++ mkTimestamp iso ++ "." ++ chooseExtension mime format := rfl
  have hbasechars : ∀ c ∈ (if sanitizeFilename (stripExtension name) == ""
      then "edited_video" else sanitizeFilename (stripExtension name)).data,
      isWordCharJS c = true ∨ c = '.' ∨ c = '-' := by
    by_cases hcl : (sanitizeFilename (stripExtension name) == "") = true
    · rw [if_pos hcl]
      intro c hc
      exact Or.inl
        ((by decide : ∀ c ∈ ("edited_video" : String).data,
          isWordCharJS c = true) c hc)
    · rw [if_neg hcl]
      exact sanitizeFilename_chars _
  refine ⟨?_, hshape, ?_, ?_⟩
  · intro c hc
    rw [hshape] at hc
    revert hc
    generalize (if sanitizeFilename (stripExtension name) == ""
      then "edited_video" else sanitizeFilename (stripExtension name)) = base
        at hbasechars
    intro hc
    simp only [String.data_append, List.mem_append] at hc
    rcases hc with (((hb | hu) | ht) | hd) | he
    · exact hbasechars c hb
    · left
      have h2 : c = '_' := by simpa using hu
      rw [h2]
      decide
    · exact Or.inl (mkTimestamp_chars iso hiso c ht)
    · right
      left
      simpa using hd
    · exact Or.inl (chooseExtension_chars mime format hfmt c he)
  · intro h
    rw [hshape, h]
    rw [if_pos (show (("" : String) == "") = true from rfl)]
  · intro h
    rw [h]
    decide

/-- Witness for C9 at the scenario input: the MOV display name with spaces,
an exclamation mark and parentheses, the quicktime media type and a concrete
ISO timestamp. -/
theorem c9_filename_sanitized_witness :
    (∀ c ∈ (generateCleanFilename "My Video! (final).mov" "mov"
        "video/quicktime" "2025-01-02T03:04:05.000Z").data,
      isWordCharJS c = true ∨ c = '.' ∨ c = '-') ∧
    generateCleanFilename "My Video! (final).mov" "mov" "video/quicktime"
        "2025-01-02T03:04:05.000Z" =
      (if sanitizeFilename (stripExtension "My Video! (final).mov") == ""
       then "edited_video"
       else sanitizeFilename (stripExtension "My Video! (final).mov"))
        ++ "_" ++ mkTimestamp "2025-01-02T03:04:05.000Z" ++ "."
        ++ chooseExtension "video/quicktime" "mov" ∧
    (sanitizeFilename (stripExtension "My Video! (final).mov") = "" →
      generateCleanFilename "My Video! (final).mov" "mov" "video/quicktime"
          "2025-01-02T03:04:05.000Z" =
        "edited_video" ++ "_" ++ mkTimestamp "2025-01-02T03:04:05.000Z" ++ "."
          ++ chooseExtension "video/quicktime" "mov") ∧
    ("My Video! (final).mov" = "My Video! (final).mov" →
      sanitizeFilename (stripExtension "My Video! (final).mov") =
        "My_Video_final") :=
  c9_filename_sanitized "My Video! (final).mov" "mov" "video/quicktime"
    "2025-01-02T03:04:05.000Z" (by decide) (by decide)
